import Mathlib

set_option maxRecDepth 8000

namespace QRService

/-- Error-correction levels of `ErrorCorrectionLevel` in `src/models/requests.py`. -/
inductive ErrorCorrectionLevel where
  | L
  | M
  | Q
  | H
deriving DecidableEq, Repr

/-- String value of the Python enum member (`ErrorCorrectionLevel.value`). -/
def ErrorCorrectionLevel.value : ErrorCorrectionLevel → String
  | .L => "L"
  | .M => "M"
  | .Q => "Q"
  | .H => "H"

/-- Result object `ValidationResult` of `src/utils/validators.py`: a success flag plus a message. -/
structure ValidationResult where
  is_valid : Bool
  message : String
deriving DecidableEq, Repr

/-- Capacity table (binary byte limits) used by `validate_capacity` in `src/utils/validators.py`. -/
def capacity_limits : ErrorCorrectionLevel → Nat
  | .L => 1663
  | .M => 1273
  | .Q => 927
  | .H => 713

/-- Embeds `validate_capacity` of `src/utils/validators.py` (lines 53-87).
`len(data.encode('utf-8'))` is the UTF-8 byte length (`String.utf8ByteSize`); the
`UnicodeEncodeError` branch is unreachable for well-formed Unicode strings, which is
what Lean's `String` type holds. -/
def validate_capacity (data : String) (error_correction : ErrorCorrectionLevel) : ValidationResult :=
  let binary_size := data.utf8ByteSize
  let max_capacity := capacity_limits error_correction
  if binary_size > max_capacity then
    { is_valid := false
      message := "Data too large for error correction level " ++ error_correction.value ++
        ". Maximum: " ++ toString max_capacity ++ " bytes, got: " ++ toString binary_size }
  else
    { is_valid := true, message := "Valid" }

theorem utf8ByteSize_go_replicate_x (n : Nat) :
    String.utf8ByteSize.go (List.replicate n 'x') = n := by
  induction n with
  | zero => rfl
  | succ k ih =>
    simp only [List.replicate, String.utf8ByteSize.go, ih]
    rfl

theorem utf8ByteSize_replicate_x (n : Nat) :
    (String.mk (List.replicate n 'x')).utf8ByteSize = n :=
  utf8ByteSize_go_replicate_x n

theorem validate_capacity_is_valid (data : String) (ec : ErrorCorrectionLevel) :
    (validate_capacity data ec).is_valid = decide (data.utf8ByteSize ≤ capacity_limits ec) := by
  unfold validate_capacity
  dsimp only
  split
  · simp
    omega
  · simp
    omega

/-- C1: for every payload and ECC level, `validate_capacity` fails with the
capacity-exceeded error message exactly when the payload's UTF-8 byte length exceeds the
level's table value (L=1663, M=1273, Q=927, H=713) and succeeds at or below it; a payload
of exactly the limit passes and one of limit+1 bytes fails. -/
theorem C1_capacity_boundary (data : String) (ec : ErrorCorrectionLevel) :
    ((validate_capacity data ec).is_valid = true ↔ data.utf8ByteSize ≤ capacity_limits ec)
    ∧ (data.utf8ByteSize > capacity_limits ec →
        (validate_capacity data ec).message =
          "Data too large for error correction level " ++ ec.value ++ ". Maximum: " ++
            toString (capacity_limits ec) ++ " bytes, got: " ++ toString data.utf8ByteSize)
    ∧ capacity_limits .L = 1663 ∧ capacity_limits .M = 1273
    ∧ capacity_limits .Q = 927 ∧ capacity_limits .H = 713
    ∧ (validate_capacity (String.mk (List.replicate (capacity_limits ec) 'x')) ec).is_valid = true
    ∧ (validate_capacity (String.mk (List.replicate (capacity_limits ec + 1) 'x')) ec).is_valid
        = false := by
  refine ⟨?_, ?_, rfl, rfl, rfl, rfl, ?_, ?_⟩
  · rw [validate_capacity_is_valid]
    simp
  · intro h
    unfold validate_capacity
    dsimp only
    split
    · rfl
    · omega
  · rw [validate_capacity_is_valid, utf8ByteSize_replicate_x]
    simp
  · rw [validate_capacity_is_valid, utf8ByteSize_replicate_x]
    simp

/-- Witness for C1: a 714-byte payload at level H (limit 713) fails with the
capacity-exceeded message, and the boundary payloads behave as stated. -/
theorem C1_capacity_boundary_witness :
    (validate_capacity (String.mk (List.replicate 714 'x')) .H).message =
      "Data too large for error correction level " ++ ErrorCorrectionLevel.value .H ++
        ". Maximum: " ++ toString (capacity_limits .H) ++ " bytes, got: " ++
        toString (String.mk (List.replicate 714 'x')).utf8ByteSize := by
  have h := (C1_capacity_boundary (String.mk (List.replicate 714 'x')) .H).2.1
  exact h (by rw [utf8ByteSize_replicate_x]; decide)

/-- Characters removed by the `re.sub` step in `sanitize_error_message`: the class `[<>]`. -/
def isAngleBracket (c : Char) : Bool := c = '<' || c = '>'

/-- Embeds `sanitize_error_message` of `src/utils/validators.py` (lines 108-120): remove
every `<` and `>` character, then, if the result still exceeds 200 characters, keep its
first 197 characters and append `"..."`. Python `len` and slicing count code points, as do
`List.length` and `List.take` over the string's character list. -/
def sanitize_error_message (message : String) : String :=
  let sanitized := message.data.filter (fun c => !(isAngleBracket c))
  if sanitized.length > 200 then
    String.mk (sanitized.take 197) ++ "..."
  else
    String.mk sanitized

theorem filter_replicate_of_pos {p : Char → Bool} {c : Char} (h : p c = true) (n : Nat) :
    (List.replicate n c).filter p = List.replicate n c := by
  induction n with
  | zero => rfl
  | succ k ih => simp [List.replicate, h, ih]

/-- C10 counterexample: the input `'<'` followed by 200 `'a'`s has length 201 > 200, yet
`sanitize_error_message` returns the 200 `'a'`s untruncated (its truncation is keyed on
the sanitized length, not the input length), and in particular the output is not 197
characters followed by `"..."`. -/
theorem C10_sanitize_counterexample :
    (String.mk ('<' :: List.replicate 200 'a')).length = 201
    ∧ sanitize_error_message (String.mk ('<' :: List.replicate 200 'a'))
        = String.mk (List.replicate 200 'a')
    ∧ sanitize_error_message (String.mk ('<' :: List.replicate 200 'a'))
        ≠ String.mk (List.replicate 197 'a') ++ "..."
    ∧ (sanitize_error_message (String.mk ('<' :: List.replicate 200 'a'))).data.getLast?
        = some 'a' := by
  refine ⟨?_, ?_, ?_, ?_⟩ <;> decide

/-- C10 (amended): `sanitize_error_message` always returns at most 200 characters and no
`<` or `>` characters; an input of at most 200 characters is returned with only those
characters removed; and truncation to 197 characters plus `"..."` happens exactly when the
sanitized text (the input with `<`/`>` removed) exceeds 200 characters, not whenever the
raw input does. -/
theorem C10_sanitize_amended (message : String) :
    (sanitize_error_message message).length ≤ 200
    ∧ (∀ c ∈ (sanitize_error_message message).data, c ≠ '<' ∧ c ≠ '>')
    ∧ (message.length ≤ 200 →
        sanitize_error_message message
          = String.mk (message.data.filter (fun c => !(isAngleBracket c))))
    ∧ ((message.data.filter (fun c => !(isAngleBracket c))).length > 200 →
        sanitize_error_message message
          = String.mk ((message.data.filter (fun c => !(isAngleBracket c))).take 197)
              ++ "...") := by
  unfold sanitize_error_message
  dsimp only
  refine ⟨?_, ?_, ?_, ?_⟩
  · split
    · rename_i h
      have : (String.mk ((message.data.filter (fun c => !(isAngleBracket c))).take 197)
          ++ "...").length
          = ((message.data.filter (fun c => !(isAngleBracket c))).take 197).length + 3 := by
        show ((message.data.filter (fun c => !(isAngleBracket c))).take 197
          ++ ('.' :: '.' :: '.' :: [])).length = _
        simp
      rw [this]
      have := List.length_take_le 197 (message.data.filter (fun c => !(isAngleBracket c)))
      omega
    · rename_i h
      have : (String.mk (message.data.filter (fun c => !(isAngleBracket c)))).length
          = (message.data.filter (fun c => !(isAngleBracket c))).length := rfl
      omega
  · intro c hc
    have hfilter : ∀ d ∈ message.data.filter (fun c => !(isAngleBracket c)),
        d ≠ '<' ∧ d ≠ '>' := by
      intro d hd
      have := List.of_mem_filter hd
      simp [isAngleBracket] at this
      exact this
    split at hc
    · have hdata : (String.mk ((message.data.filter (fun c => !(isAngleBracket c))).take 197)
          ++ "...").data
          = (message.data.filter (fun c => !(isAngleBracket c))).take 197
              ++ ('.' :: '.' :: '.' :: []) := rfl
      rw [hdata] at hc
      rcases List.mem_append.mp hc with h | h
      · exact hfilter c (List.mem_of_mem_take h)
      · simp at h
        subst h
        exact ⟨by decide, by decide⟩
    · exact hfilter c hc
  · intro hlen
    have hle : (message.data.filter (fun c => !(isAngleBracket c))).length ≤ 200 := by
      have := List.length_filter_le (fun c => !(isAngleBracket c)) message.data
      have hml : message.length = message.data.length := rfl
      omega
    split
    · omega
    · rfl
  · intro hgt
    split
    · rfl
    · omega

/-- Witness for C10 (amended): a short input has its brackets removed, and an input whose
sanitized form exceeds 200 characters is truncated to 197 characters plus dots. -/
theorem C10_sanitize_amended_witness :
    sanitize_error_message (String.mk ('<' :: 'o' :: 'k' :: []))
      = String.mk ('o' :: 'k' :: [])
    ∧ sanitize_error_message (String.mk (List.replicate 201 'a'))
      = String.mk (List.replicate 197 'a') ++ "..." := by
  constructor
  · have h := (C10_sanitize_amended (String.mk ('<' :: 'o' :: 'k' :: []))).2.2.1 (by decide)
    exact h.trans (by decide)
  · have h := (C10_sanitize_amended (String.mk (List.replicate 201 'a'))).2.2.2 (by decide)
    exact h.trans (by decide)

/-- All ways to cut a character list into two adjacent pieces; used to give the regex of
`is_valid_url` its standard language semantics (a concatenation matches iff some cut
matches both sides, which is what Python's backtracking engine decides). -/
def splits (s : List Char) : List (List Char × List Char) :=
  (List.range (s.length + 1)).map (fun i => (s.take i, s.drop i))

/-- One domain label of the regex: `[A-Z0-9](?:[A-Z0-9-]{0,61}[A-Z0-9])?` (with
`re.IGNORECASE`, so ASCII letters of both cases). -/
def matchLabel (l : List Char) : Bool :=
  match l with
  | [] => false
  | a :: rest =>
    (a.isAlpha || a.isDigit) &&
    (rest.isEmpty ||
      (decide (rest.length ≤ 62) &&
        rest.dropLast.all (fun c => c.isAlpha || c.isDigit || c == '-') &&
        (match rest.getLast? with
         | some d => d.isAlpha || d.isDigit
         | none => false)))

/-- Final part of the domain alternative of the regex: `[A-Z]{2,6}\.?`. -/
def matchTld (s : List Char) : Bool :=
  (decide (2 ≤ s.length) && decide (s.length ≤ 6) && s.all Char.isAlpha) ||
  (match s.getLast? with
   | some c =>
     c == '.' && decide (2 ≤ s.dropLast.length) && decide (s.dropLast.length ≤ 6) &&
       s.dropLast.all Char.isAlpha
   | none => false)

/-- Domain alternative of the regex: `(?:LABEL\.)+[A-Z]{2,6}\.?`, one or more dot-ended
labels followed by a TLD. The fuel argument bounds the recursion by the list length. -/
def matchDomainAux : Nat → List Char → Bool
  | 0, _ => false
  | fuel + 1, s =>
    (splits s).any (fun p =>
      match p.2 with
      | '.' :: r => matchLabel p.1 && (matchTld r || matchDomainAux fuel r)
      | _ => false)

/-- Entry point for the domain alternative. -/
def matchDomain (s : List Char) : Bool := matchDomainAux s.length s

/-- IPv4 alternative of the regex: `\d{1,3}\.\d{1,3}\.\d{1,3}\.\d{1,3}` (ASCII digits). -/
def matchIpv4 (s : List Char) : Bool :=
  let parts := s.splitOn '.'
  parts.length == 4 &&
    parts.all (fun p => decide (1 ≤ p.length) && decide (p.length ≤ 3) && p.all Char.isDigit)

/-- Host group of the regex: domain with TLD, the literal `localhost` (case-insensitive),
or an IPv4 literal. -/
def matchHost (s : List Char) : Bool :=
  matchDomain s || decide (s.map Char.toLower = "localhost".data) || matchIpv4 s

/-- Optional port of the regex: `(?::\d+)?`. -/
def matchPort (s : List Char) : Bool :=
  match s with
  | [] => true
  | ':' :: ds => !ds.isEmpty && ds.all Char.isDigit
  | _ => false

/-- Python `\S`: not a whitespace character (ASCII whitespace in this model). -/
def isNotSpaceA (c : Char) : Bool :=
  !(c == ' ' || c == '\t' || c == '\n' || c == '\r' || c == '\x0b' || c == '\x0c')

/-- Trailing part of the regex: `(?:/?|[/?]\S+)$` — empty, a single slash, or a slash or
question mark followed by one or more non-whitespace characters. -/
def matchTail (s : List Char) : Bool :=
  match s with
  | [] => true
  | ['/'] => true
  | c :: rest => (c == '/' || c == '?') && !rest.isEmpty && rest.all isNotSpaceA

/-- Host, optional port and tail of the regex, matched against the whole remainder. -/
def urlCore (r : List Char) : Bool :=
  (splits r).any (fun hp =>
    matchHost hp.1 &&
    (splits hp.2).any (fun pt => matchPort pt.1 && matchTail pt.2))

/-- Scheme `https?://` (case-insensitive) followed by `urlCore` on the rest. -/
def urlBody (t : List Char) : Bool :=
  (decide ((t.take 7).map Char.toLower = "http://".data) && urlCore (t.drop 7)) ||
  (decide ((t.take 8).map Char.toLower = "https://".data) && urlCore (t.drop 8))

/-- Embeds `is_valid_url` of `src/utils/validators.py` (lines 90-105): `re.match` of the
anchored pattern `^https?://(domain|localhost|ipv4)(?::\d+)?(?:/?|[/?]\S+)$` with
`re.IGNORECASE`. In Python, `$` also matches just before a trailing newline, hence the
second disjunct. Character classes are modelled over ASCII. -/
def is_valid_url (url : String) : Bool :=
  let s := url.data
  urlBody s ||
  (match s.getLast? with
   | some c => c == '\n' && urlBody s.dropLast
   | none => false)

/-- Python `str.startswith` on a single argument. -/
def startsWithStr (s p : String) : Bool := p.data.isPrefixOf s.data

/-- Whitespace characters removed by Python `str.strip()` (ASCII range of them). -/
def isPySpace (c : Char) : Bool :=
  c == ' ' || c == '\t' || c == '\n' || c == '\r' || c == '\x0b' || c == '\x0c'

/-- Embeds `validate_qr_data` of `src/utils/validators.py` (lines 22-50): reject empty or
whitespace-only data, then data longer than 2000 characters, then URL-prefixed data that
fails `is_valid_url`. The UTF-8 encode test never fails on well-formed Unicode strings
(which is what `String` holds), so that branch is unreachable in the model. -/
def validate_qr_data (data : String) : ValidationResult :=
  if data.data.isEmpty || data.data.all isPySpace then
    { is_valid := false, message := "Data cannot be empty" }
  else if data.length > 2000 then
    { is_valid := false, message := "Data exceeds maximum length of 2000 characters" }
  else if (startsWithStr data "http://" || startsWithStr data "https://" ||
      startsWithStr data "ftp://") && !(is_valid_url data) then
    { is_valid := false, message := "Invalid URL format" }
  else
    { is_valid := true, message := "Valid" }

/-- Claim-side definition, following the words of the spec sentence behind C6: a
syntactically valid URL is a scheme (`http://`, `https://` or `ftp://`) followed by a host
(domain with a TLD, `localhost`, or an IPv4 literal), an optional port and an optional
path or query — the same shape the code's regex demands after its scheme, but with `ftp`
admitted as a scheme. -/
def spec_syntactically_valid_url (url : String) : Bool :=
  let s := url.data
  ("http://".data.isPrefixOf s && urlCore (s.drop 7)) ||
  ("https://".data.isPrefixOf s && urlCore (s.drop 8)) ||
  ("ftp://".data.isPrefixOf s && urlCore (s.drop 6))

theorem urlBody_nil : urlBody [] = false := rfl

theorem urlBody_false_of_head (c : Char) (l : List Char) (h : c.toLower ≠ 'h') :
    urlBody (c :: l) = false := by
  unfold urlBody
  rw [show "http://".data = 'h' :: 't' :: 't' :: 'p' :: ':' :: '/' :: '/' :: [] from rfl,
    show "https://".data = 'h' :: 't' :: 't' :: 'p' :: 's' :: ':' :: '/' :: '/' :: [] from rfl]
  simp [List.take_succ_cons, h]

theorem is_valid_url_false_of_ftp (data : String) (rest : List Char)
    (hdata : data.data = 'f' :: 't' :: 'p' :: ':' :: '/' :: '/' :: rest) :
    is_valid_url data = false := by
  have hf : Char.toLower 'f' ≠ 'h' := by decide
  unfold is_valid_url
  rw [hdata]
  dsimp only
  rw [urlBody_false_of_head _ _ hf]
  have hdrop : ('f' :: 't' :: 'p' :: ':' :: '/' :: '/' :: rest).dropLast
      = 'f' :: ('t' :: 'p' :: ':' :: '/' :: '/' :: rest).dropLast := List.dropLast_cons₂
  cases hlast : ('f' :: 't' :: 'p' :: ':' :: '/' :: '/' :: rest).getLast? with
  | none => simp
  | some c => simp [hdrop, urlBody_false_of_head _ _ hf]

theorem data_eq_of_startsWith (data p : String) (h : startsWithStr data p = true) :
    ∃ t, data.data = p.data ++ t := by
  unfold startsWithStr at h
  rw [List.isPrefixOf_iff_prefix] at h
  obtain ⟨t, ht⟩ := h
  exact ⟨t, ht.symm⟩

theorem validate_qr_data_branch (data : String) (hne : data.data.isEmpty = false)
    (hsp : data.data.all isPySpace = false) (hlen : data.length ≤ 2000) :
    validate_qr_data data =
      if (startsWithStr data "http://" || startsWithStr data "https://" ||
          startsWithStr data "ftp://") && !(is_valid_url data) then
        { is_valid := false, message := "Invalid URL format" }
      else { is_valid := true, message := "Valid" } := by
  unfold validate_qr_data
  have h2 : ¬ (data.length > 2000) := by omega
  simp [hne, hsp, h2]

/-- C6 counterexample: `"ftp://example.com/"` starts with `ftp://` and is a syntactically
valid URL in the claim's sense (scheme, host with TLD, path), yet `validate_qr_data`
rejects it with the invalid-URL-format error, because the regex in `is_valid_url` only
admits the schemes `http` and `https`. -/
theorem C6_url_counterexample :
    startsWithStr "ftp://example.com/" "ftp://" = true
    ∧ spec_syntactically_valid_url "ftp://example.com/" = true
    ∧ validate_qr_data "ftp://example.com/"
        = { is_valid := false, message := "Invalid URL format" } := by
  refine ⟨?_, ?_, ?_⟩ <;> decide

/-- C6 (amended): for payloads of at most 2000 characters — every payload starting with
`ftp://` fails validation with the invalid-URL-format error regardless of its syntactic
shape (the regex admits only `http`/`https` schemes); a payload starting with `http://` or
`https://` passes validation exactly when it matches the code's URL regex; and a payload
starting with none of the three prefixes skips the URL check entirely. -/
theorem C6_url_check_amended (data : String) :
    (startsWithStr data "ftp://" = true → data.length ≤ 2000 →
      validate_qr_data data = { is_valid := false, message := "Invalid URL format" })
    ∧ ((startsWithStr data "http://" = true ∨ startsWithStr data "https://" = true) →
        data.length ≤ 2000 →
        ((validate_qr_data data).is_valid = true ↔ is_valid_url data = true))
    ∧ (startsWithStr data "http://" = false → startsWithStr data "https://" = false →
        startsWithStr data "ftp://" = false →
        data.data.isEmpty = false → data.data.all isPySpace = false →
        data.length ≤ 2000 →
        validate_qr_data data = { is_valid := true, message := "Valid" }) := by
  refine ⟨?_, ?_, ?_⟩
  · intro hftp hlen
    obtain ⟨t, ht⟩ := data_eq_of_startsWith data "ftp://" hftp
    have ht' : data.data = 'f' :: 't' :: 'p' :: ':' :: '/' :: '/' :: t := by rw [ht]; rfl
    have hne : data.data.isEmpty = false := by rw [ht']; rfl
    have hsp : data.data.all isPySpace = false := by
      rw [ht']
      simp [List.all_cons]
      intro h
      exact absurd h (by decide)
    rw [validate_qr_data_branch data hne hsp hlen,
      is_valid_url_false_of_ftp data t ht', hftp]
    simp
  · intro hh hlen
    have hhead : ∃ t, data.data = 'h' :: t := by
      rcases hh with h1 | h1
      · obtain ⟨t, ht⟩ := data_eq_of_startsWith data "http://" h1
        exact ⟨'t' :: 't' :: 'p' :: ':' :: '/' :: '/' :: t, by rw [ht]; rfl⟩
      · obtain ⟨t, ht⟩ := data_eq_of_startsWith data "https://" h1
        exact ⟨'t' :: 't' :: 'p' :: 's' :: ':' :: '/' :: '/' :: t, by rw [ht]; rfl⟩
    obtain ⟨t, ht⟩ := hhead
    have hne : data.data.isEmpty = false := by rw [ht]; rfl
    have hsp : data.data.all isPySpace = false := by
      rw [ht]
      simp [List.all_cons]
      intro h
      exact absurd h (by decide)
    rw [validate_qr_data_branch data hne hsp hlen]
    cases hu : is_valid_url data with
    | false =>
      rcases hh with h1 | h1 <;> rw [h1] <;> simp [hu]
    | true =>
      simp [hu]
  · intro h1 h2 h3 hne hsp hlen
    rw [validate_qr_data_branch data hne hsp hlen, h1, h2, h3]
    simp

/-- Witness for C6 (amended) at three concrete payloads: an `ftp://` URL that is rejected,
an `http://` URL that passes, and a plain-text payload that skips the URL check. -/
theorem C6_url_check_amended_witness :
    validate_qr_data "ftp://example.com/"
      = { is_valid := false, message := "Invalid URL format" }
    ∧ (validate_qr_data "http://example.com").is_valid = true
    ∧ validate_qr_data "hello" = { is_valid := true, message := "Valid" } := by
  refine ⟨?_, ?_, ?_⟩
  · exact (C6_url_check_amended "ftp://example.com/").1 (by decide) (by decide)
  · exact ((C6_url_check_amended "http://example.com").2.1 (Or.inl (by decide))
      (by decide)).mpr (by decide)
  · exact (C6_url_check_amended "hello").2.2 (by decide) (by decide) (by decide)
      (by decide) (by decide) (by decide)

/-- Token payload of `TokenPayload` in `src/models/auth.py`: subject, expiry, issued-at
and scope list; the timestamps are whole Unix seconds, as the code truncates them with
`int(...)`. -/
structure TokenPayload where
  sub : String
  exp : Int
  iat : Int
  scopes : List String
deriving DecidableEq, Repr

/-- Modelled from the spec: the external `jose` JWT library consumed by
`src/services/auth.py` is not part of the repository. Per the spec's Token Service
contract, an encoded token is a signed container of its payload under a secret and an
algorithm. -/
structure SignedToken where
  payload : TokenPayload
  signedSecret : String
  signedAlg : String
deriving DecidableEq, Repr

/-- Modelled from the spec: `jose.jwt.encode(payload, secret, algorithm)`. -/
def jwtEncode (payload : TokenPayload) (secret alg : String) : SignedToken :=
  { payload := payload, signedSecret := secret, signedAlg := alg }

/-- Modelled from the spec: `jose.jwt.decode(token, secret, algorithms=[alg])` evaluated
at time `now` — it "checks signature validity against the configured secret/algorithm,
decodes payload, and checks `expiry > now`"; each failing sub-check raises a `JWTError`
carrying that sub-check's own message (the library distinguishes
`ExpiredSignatureError` from a signature failure). -/
def jwtDecode (t : SignedToken) (secret : String) (algs : List String) (now : Int) :
    Except String TokenPayload :=
  if t.signedSecret = secret then
    if t.signedAlg ∈ algs then
      if now < t.payload.exp then .ok t.payload
      else .error "Signature has expired."
    else .error "The specified alg value is not allowed"
  else .error "Signature verification failed."

/-- Embeds `AuthService.create_access_token` (`src/services/auth.py`, lines 28-49): the
payload carries the user id as subject, expiry equal to issuance time plus the TTL
(`expires_delta`, here in seconds), the issuance time, and the user's scopes, encoded
with the configured secret and algorithm. -/
def create_access_token (userId : String) (scopes : List String) (secret alg : String)
    (now ttlSeconds : Int) : SignedToken :=
  jwtEncode { sub := userId, exp := now + ttlSeconds, iat := now, scopes := scopes }
    secret alg

/-- Embeds `AuthService.verify_token` (`src/services/auth.py`, lines 51-64): decode with
the configured secret and algorithm; any `JWTError` `e` is re-raised as
`ValueError("Invalid token: " + str(e))`. -/
def verify_token (token : SignedToken) (secret alg : String) (now : Int) :
    Except String TokenPayload :=
  match jwtDecode token secret [alg] now with
  | .ok p => .ok p
  | .error e => .error ("Invalid token: " ++ e)

/-- C2: a token issued at time `t0` with TTL `T` verifies successfully (returning its
payload) at any time strictly before `t0 + T`, and fails verification (with the expiry
error) at any time strictly after `t0 + T`. -/
theorem C2_token_roundtrip (userId : String) (scopes : List String) (secret alg : String)
    (t0 T t : Int) :
    (t < t0 + T →
      verify_token (create_access_token userId scopes secret alg t0 T) secret alg t
        = .ok { sub := userId, exp := t0 + T, iat := t0, scopes := scopes })
    ∧ (t > t0 + T →
      verify_token (create_access_token userId scopes secret alg t0 T) secret alg t
        = .error "Invalid token: Signature has expired.") := by
  constructor
  · intro h
    unfold verify_token create_access_token jwtEncode jwtDecode
    simp [h]
  · intro h
    unfold verify_token create_access_token jwtEncode jwtDecode
    have hn : ¬ (t < t0 + T) := by omega
    simp [hn]

/-- Witness for C2: a token issued at time 1000 with TTL 1800 seconds verifies at time
1500 and fails at time 3000. -/
theorem C2_token_roundtrip_witness :
    verify_token
        (create_access_token "admin" ["qr:generate"] "secret-key" "HS256" 1000 1800)
        "secret-key" "HS256" 1500
      = .ok { sub := "admin", exp := 1000 + 1800, iat := 1000, scopes := ["qr:generate"] }
    ∧ verify_token
        (create_access_token "admin" ["qr:generate"] "secret-key" "HS256" 1000 1800)
        "secret-key" "HS256" 3000
      = .error "Invalid token: Signature has expired." := by
  constructor
  · exact (C2_token_roundtrip "admin" ["qr:generate"] "secret-key" "HS256" 1000 1800
      1500).1 (by decide)
  · exact (C2_token_roundtrip "admin" ["qr:generate"] "secret-key" "HS256" 1000 1800
      3000).2 (by decide)

/-- C5 counterexample: two failed verifications — a token signed under a different secret
and an expired token — surface distinct error messages, so the failure result observable
by the caller of `verify_token` reveals which sub-check failed, contrary to the claimed
uniform `InvalidOrExpiredToken` outcome. -/
theorem C5_uniform_failure_counterexample :
    verify_token
        (jwtEncode { sub := "user", exp := 2000, iat := 1000, scopes := [] }
          "other-secret" "HS256")
        "secret-key" "HS256" 1500
      = .error "Invalid token: Signature verification failed."
    ∧ verify_token
        (jwtEncode { sub := "user", exp := 1200, iat := 1000, scopes := [] }
          "secret-key" "HS256")
        "secret-key" "HS256" 1500
      = .error "Invalid token: Signature has expired."
    ∧ ("Invalid token: Signature verification failed." : String)
        ≠ "Invalid token: Signature has expired." := by
  refine ⟨rfl, rfl, by decide⟩

/-- Embeds the `validate_capacity` pydantic validator of `QRCodeRequest`
(`src/models/requests.py`, lines 92-118). A pydantic `@validator('data')` receives in
`values` only the fields already validated, i.e. those declared before `data`; the body
runs only under the guard `if 'error_correction' in values`. The
`values_has_error_correction` argument makes that guard explicit. -/
def model_validate_capacity (v : String) (values_has_error_correction : Bool)
    (error_correction : ErrorCorrectionLevel) : Except String String :=
  if values_has_error_correction then
    if v.utf8ByteSize > capacity_limits error_correction then
      .error ("Data too large for error correction level " ++ error_correction.value ++
        ". Maximum: " ++ toString (capacity_limits error_correction) ++ " bytes, got: " ++
        toString v.utf8ByteSize)
    else .ok v
  else .ok v

/-- Field order of `QRCodeRequest` (`src/models/requests.py`, lines 53-63): `data` is the
first declared field, so when its validators run no other field — in particular
`error_correction` — has been validated yet and `values` cannot contain it. -/
def model_values_has_error_correction : Bool := false

/-- The request model's capacity check as it actually executes on a request. -/
def model_capacity_check (v : String) (ec : ErrorCorrectionLevel) : Except String String :=
  model_validate_capacity v model_values_has_error_correction ec

/-- C7: the two capacity checks do not agree. The request model's capacity validator is
skipped for every payload (its `'error_correction' in values` guard is always false
because `data` is declared before `error_correction`), so it accepts a 714-byte payload
at level H — indeed it accepts every payload — while the service-side `validate_capacity`
rejects that payload as over capacity. -/
theorem C7_duplicate_capacity_check :
    model_capacity_check (String.mk (List.replicate 714 'x')) .H
      = .ok (String.mk (List.replicate 714 'x'))
    ∧ (validate_capacity (String.mk (List.replicate 714 'x')) .H).is_valid = false
    ∧ (String.mk (List.replicate 714 'x')).utf8ByteSize > capacity_limits .H
    ∧ (∀ v ec, model_capacity_check v ec = .ok v) := by
  refine ⟨rfl, ?_, ?_, fun v ec => rfl⟩
  · rw [validate_capacity_is_valid, utf8ByteSize_replicate_x]
    simp
    decide
  · rw [utf8ByteSize_replicate_x]
    show capacity_limits .H < 714
    decide

/-- Exception classes distinguished by the `/qr-code` endpoint's handlers
(`src/api/endpoints/qr.py`, lines 80-109). -/
inductive PyExc where
  | valueError (msg : String)
  | runtimeError (msg : String)
  | otherExc (msg : String)
deriving DecidableEq, Repr

/-- Embeds the validation and error-wrapping skeleton of
`QRCodeGenerator.generate_qr_code` (`src/services/qr_generator.py`, lines 43-91): the
data and capacity validations each raise `ValueError` with the validation message, and
any exception the format renderer raises inside the `try` block is re-raised as
`ValueError("Failed to generate QR code: " + str(e))`. The rendering itself is the
external raster/vector/PDF pipeline; its outcome is the `renderOutcome` parameter. -/
def generate_qr_code_service (data : String) (ec : ErrorCorrectionLevel)
    (renderOutcome : Except String (List Nat)) : Except PyExc (List Nat) :=
  if (validate_qr_data data).is_valid = false then
    .error (.valueError (validate_qr_data data).message)
  else if (validate_capacity data ec).is_valid = false then
    .error (.valueError (validate_capacity data ec).message)
  else
    match renderOutcome with
    | .ok b => .ok b
    | .error e => .error (.valueError ("Failed to generate QR code: " ++ e))

/-- Embeds the exception handlers of the `/qr-code` endpoint
(`src/api/endpoints/qr.py`, lines 80-109): `ValueError` is answered with status 400 and
category `validation_error`, `RuntimeError` with 422 and `generation_error`, and any
other exception with 500 and `internal_error`. -/
def qr_endpoint_response : Except PyExc (List Nat) → Nat × String
  | .ok _ => (200, "")
  | .error (.valueError _) => (400, "validation_error")
  | .error (.runtimeError _) => (422, "generation_error")
  | .error (.otherExc _) => (500, "internal_error")

/-- C4: a payload that passes both validations but whose renderer fails is answered with
400 `validation_error`, not the claimed 422 `generation_error`: the service wraps every
generation failure in `ValueError`, the endpoint maps `ValueError` to 400, and the
service never raises `RuntimeError`, so the endpoint's 422 branch is unreachable from
it. -/
theorem C4_generation_error_status :
    (validate_qr_data "Hello, World!").is_valid = true
    ∧ (validate_capacity "Hello, World!" .M).is_valid = true
    ∧ qr_endpoint_response
        (generate_qr_code_service "Hello, World!" .M (.error "render failed"))
        = (400, "validation_error")
    ∧ ((400, "validation_error") : Nat × String) ≠ (422, "generation_error")
    ∧ (∀ data ec e, ∃ m,
        generate_qr_code_service data ec (.error e) = .error (.valueError m)) := by
  refine ⟨by decide, by decide, rfl, by decide, ?_⟩
  intro data ec e
  unfold generate_qr_code_service
  split
  · exact ⟨(validate_qr_data data).message, rfl⟩
  · split
    · exact ⟨(validate_capacity data ec).message, rfl⟩
    · exact ⟨"Failed to generate QR code: " ++ e, rfl⟩

/-- Size classes of `QRSize` in `src/models/requests.py` (lines 11-25). -/
inductive QRSize where
  | small
  | medium
  | large
deriving DecidableEq, Repr

/-- Pixel dimension of each size class (`QRSize.pixels`). -/
def QRSize.pixels : QRSize → Nat
  | .small => 150
  | .medium => 300
  | .large => 600

/-- String value of the Python enum member (`QRSize.value`), which is what an f-string
interpolates for a `str`-mixin enum. -/
def QRSize.value : QRSize → String
  | .small => "small"
  | .medium => "medium"
  | .large => "large"

/-- The text lines drawn on the fallback page of `_generate_pdf_qr`
(`src/services/qr_generator.py`, lines 216-258): a title, the payload preview truncated
to 60 characters, the size line (which interpolates the Python local `target_size`), the
error-correction line, and the failure note. -/
def pdf_fallback_lines (data : String) (size : QRSize) (ec : ErrorCorrectionLevel)
    (target_size : Nat) : List String :=
  ["QR Code Generator API",
   "Data: " ++ String.mk (data.data.take 60) ++ (if data.length > 60 then "..." else ""),
   "Size: " ++ size.value ++ " (" ++ toString target_size ++ "x" ++ toString target_size
     ++ "px)",
   "Error Correction: " ++ ec.value,
   "Note: QR code image generation failed - showing text representation"]

/-- Modelled from the spec: the reportlab canvas (external library). A saved canvas
renders its drawn content into a PDF byte stream that always begins with the PDF header,
modelled here as the header marker bytes followed by the UTF-8 bytes of the drawn text. -/
def canvas_bytes (lines : List String) : List Nat :=
  ("%PDF".data.map Char.toNat) ++ ((String.intercalate "\n" lines).data.map Char.toNat)

/-- Embeds the `except` branch of `_generate_pdf_qr` (`src/services/qr_generator.py`,
lines 216-258). The branch reads the Python local `target_size`, which is bound only at
line 193 inside the `try` block; if the exception was raised before that line the read
raises `UnboundLocalError`, otherwise the text page is drawn and the canvas saved. -/
def pdf_fallback (data : String) (size : QRSize) (ec : ErrorCorrectionLevel)
    (target_size : Option Nat) : Except String (List Nat) :=
  match target_size with
  | none =>
    .error "UnboundLocalError: local variable target_size referenced before assignment"
  | some ts => .ok (canvas_bytes (pdf_fallback_lines data size ec ts))

/-- Embeds `_generate_pdf_qr` (`src/services/qr_generator.py`, lines 174-258) as a
function of where its `try` block fails. `rasterOutcome` is the PNG generation at line
186, which runs before the local `target_size` is bound at line 193; `embedOutcome` is
the image-reader/`drawImage` embedding step, which runs after the binding. Any failure
falls into `pdf_fallback` with exactly the locals bound at the failure point; on success
the canvas with the embedded PNG is saved. -/
def generate_pdf_qr (data : String) (size : QRSize) (ec : ErrorCorrectionLevel)
    (rasterOutcome : Except String (List Nat)) (embedOutcome : Except String Unit) :
    Except String (List Nat) :=
  match rasterOutcome with
  | .error _ => pdf_fallback data size ec none
  | .ok png_data =>
    let target_size := size.pixels
    match embedOutcome with
    | .error _ => pdf_fallback data size ec (some target_size)
    | .ok _ => .ok (("%PDF".data.map Char.toNat) ++ png_data)

/-- C3: the fallback path of `_generate_pdf_qr` is not failure-free. When the failure
happens in the raster step — before line 193 binds `target_size` — the fallback itself
raises `UnboundLocalError` and no PDF bytes are produced; only failures in the embed
step, after the binding, recover to the non-empty text page. -/
theorem C3_pdf_fallback_unbound_local :
    generate_pdf_qr "Hello" .medium .M (.error "PNG generation failed") (.ok ())
      = .error "UnboundLocalError: local variable target_size referenced before assignment"
    ∧ (∀ png e, generate_pdf_qr "Hello" .medium .M (.ok png) (.error e)
        = .ok (canvas_bytes (pdf_fallback_lines "Hello" .medium .M 300)))
    ∧ canvas_bytes (pdf_fallback_lines "Hello" .medium .M 300) ≠ [] := by
  refine ⟨rfl, fun png e => rfl, by decide⟩

/-- Paths exempted from authentication by `auth_middleware`
(`src/middleware/auth.py`, lines 20-21), together with the `/v1/auth/` path family. -/
def exempt_paths : List String := ["/v1/health", "/docs", "/redoc", "/openapi.json"]

/-- Outcome of the authentication gate: either the request is forwarded to its handler,
or it is rejected with the status code and `detail` string of the raised
`HTTPException`. -/
inductive GateResult where
  | forward
  | reject (status : Nat) (detail : String)
deriving DecidableEq, Repr

/-- Embeds `auth_middleware` (`src/middleware/auth.py`, lines 14-84): exempt paths are
passed through untouched; other requests need an `Authorization` header starting with
`Bearer `, whose token must decode (the external `jose` decode of the raw token string is
the `decodeOutcome` parameter) and not be expired. The explicit expiry re-check at line
55 runs only when the decoded `exp` is truthy, i.e. non-zero. -/
def auth_middleware (path : String) (authorization : Option String)
    (decodeOutcome : Except String TokenPayload) (now : Int) : GateResult :=
  if path ∈ exempt_paths || startsWithStr path "/v1/auth/" then
    .forward
  else
    match authorization with
    | none => .reject 401 "Missing authentication token"
    | some a =>
      if !(startsWithStr a "Bearer ") then
        .reject 401 "Invalid authentication token format. Expected: 'Bearer <token>'"
      else
        match decodeOutcome with
        | .error _ => .reject 401 "Invalid authentication token"
        | .ok p =>
          if p.exp ≠ 0 ∧ p.exp < now then .reject 401 "Token has expired"
          else .forward

/-- Status of the fixed response of the `/v1/health` handler in `src/main.py`
(lines 43-50), which returns its liveness payload unconditionally. -/
def health_check_status : Nat := 200

/-- Status observed by the client: the gate's rejection status, or the handler's status
when the gate forwards. -/
def app_status (path : String) (authorization : Option String)
    (decodeOutcome : Except String TokenPayload) (now : Int) (handlerStatus : Nat) : Nat :=
  match auth_middleware path authorization decodeOutcome now with
  | .forward => handlerStatus
  | .reject s _ => s

/-- C8: a protected request with no `Authorization` header is rejected with status 401,
but the response carries only the plain detail string `"Missing authentication token"` —
every rejection the gate can produce is a 401 with one of four plain detail strings, and
none of them is the machine-readable category `authentication_error` that the claim (and
the repository's own contract tests) expect; the health endpoint is exempt from the gate
and its handler always answers 200, so it never returns 401. -/
theorem C8_missing_header_and_health (authorization : Option String)
    (decodeOutcome : Except String TokenPayload) (now : Int) :
    auth_middleware "/v1/qr-code" none decodeOutcome now
      = .reject 401 "Missing authentication token"
    ∧ auth_middleware "/v1/health" authorization decodeOutcome now = .forward
    ∧ app_status "/v1/health" authorization decodeOutcome now health_check_status = 200
    ∧ (∀ path s d, auth_middleware path authorization decodeOutcome now = .reject s d →
        s = 401 ∧ d ≠ "authentication_error") := by
  have hhealth : auth_middleware "/v1/health" authorization decodeOutcome now
      = .forward := by
    unfold auth_middleware
    simp [exempt_paths]
  refine ⟨?_, hhealth, ?_, ?_⟩
  · unfold auth_middleware
    simp [exempt_paths]
    decide
  · unfold app_status
    rw [hhealth]
    rfl
  · intro path s d h
    unfold auth_middleware at h
    split at h
    · exact absurd h (by simp)
    · cases authorization with
      | none =>
        simp at h
        obtain ⟨hs, hd⟩ := h
        subst hs; subst hd
        exact ⟨rfl, by decide⟩
      | some a =>
        dsimp only at h
        split at h
        · simp at h
          obtain ⟨hs, hd⟩ := h
          subst hs; subst hd
          exact ⟨rfl, by decide⟩
        · split at h
          · simp at h
            obtain ⟨hs, hd⟩ := h
            subst hs; subst hd
            exact ⟨rfl, by decide⟩
          · split at h
            · simp at h
              obtain ⟨hs, hd⟩ := h
              subst hs; subst hd
              exact ⟨rfl, by decide⟩
            · exact absurd h (by simp)

/-- Witness for C8 at concrete gate inputs: a protected path with no header is rejected
401 with the plain missing-token detail, which is not the `authentication_error`
category; the health path is forwarded and answers 200. -/
theorem C8_missing_header_and_health_witness :
    auth_middleware "/v1/qr-code" none (.error "no header") 0
      = .reject 401 "Missing authentication token"
    ∧ auth_middleware "/v1/health" none (.error "no header") 0 = .forward
    ∧ app_status "/v1/health" none (.error "no header") 0 health_check_status = 200
    ∧ (401 = 401 ∧ "Missing authentication token" ≠ "authentication_error") := by
  obtain ⟨h1, h2, h3, h4⟩ := C8_missing_header_and_health (none : Option String)
    (.error "no header") 0
  exact ⟨h1, h2, h3, h4 "/v1/qr-code" 401 "Missing authentication token" h1⟩

/-- C5 (amended): on the request path the failure result is uniform — the gate answers
every jose decode failure of a presented `Bearer` token, whatever its reason, with the
same 401 detail `"Invalid authentication token"` — but `AuthService.verify_token`, which
no request path ever invokes, re-raises each failure as a `ValueError` whose message is
`"Invalid token: "` followed by the failing sub-check's own library text, so any caller
of that method can tell the sub-checks apart. -/
theorem C5_uniform_failure_amended (token : SignedToken) (secret alg : String) (now : Int)
    (e : String) (h : verify_token token secret alg now = .error e) :
    ((∃ tail, e = "Invalid token: " ++ tail)
      ∧ startsWithStr e "Invalid token: " = true)
    ∧ (∀ (path a msg : String) (now2 : Int),
        (path ∈ exempt_paths || startsWithStr path "/v1/auth/") = false →
        startsWithStr a "Bearer " = true →
        auth_middleware path (some a) (.error msg) now2
          = .reject 401 "Invalid authentication token") := by
  constructor
  · have hshape : ∃ tail, e = "Invalid token: " ++ tail := by
      unfold verify_token at h
      cases hd : jwtDecode token secret [alg] now with
      | ok p => rw [hd] at h; exact absurd h (by simp)
      | error e0 =>
        rw [hd] at h
        simp at h
        exact ⟨e0, h.symm⟩
    refine ⟨hshape, ?_⟩
    obtain ⟨tail, htail⟩ := hshape
    subst htail
    unfold startsWithStr
    have : ("Invalid token: " ++ tail).data = "Invalid token: ".data ++ tail.data := rfl
    rw [this, List.isPrefixOf_iff_prefix]
    exact ⟨tail.data, rfl⟩
  · intro path a msg now2 hcond hstart
    unfold auth_middleware
    simp [hcond, hstart]

/-- Witness for C5 (amended): the expired-token `ValueError` message carries the uniform
marker followed by the expiry sub-check's text, while at the gate an expiry failure and a
signature failure produce the very same 401 detail. -/
theorem C5_uniform_failure_amended_witness :
    ((∃ tail, ("Invalid token: Signature has expired." : String)
        = "Invalid token: " ++ tail)
      ∧ startsWithStr "Invalid token: Signature has expired." "Invalid token: " = true)
    ∧ auth_middleware "/v1/qr-code" (some "Bearer abc")
        (.error "Signature has expired.") 0
        = .reject 401 "Invalid authentication token"
    ∧ auth_middleware "/v1/qr-code" (some "Bearer abc")
        (.error "Signature verification failed.") 0
        = .reject 401 "Invalid authentication token" := by
  have h := C5_uniform_failure_amended
    (jwtEncode { sub := "user", exp := 1200, iat := 1000, scopes := [] }
      "secret-key" "HS256")
    "secret-key" "HS256" 1500 "Invalid token: Signature has expired." rfl
  exact ⟨h.1,
    h.2 "/v1/qr-code" "Bearer abc" "Signature has expired." 0 (by decide) (by decide),
    h.2 "/v1/qr-code" "Bearer abc" "Signature verification failed." 0
      (by decide) (by decide)⟩

/-- Output formats of `OutputFormat` in `src/models/requests.py` (lines 36-41). -/
inductive OutputFormat where
  | png
  | svg
  | jpeg
  | pdf
deriving DecidableEq, Repr

/-- Request model `QRCodeRequest` of `src/models/requests.py` (fields used by the
generator service). -/
structure QRCodeRequest where
  data : String
  size : QRSize
  format : OutputFormat
  error_correction : ErrorCorrectionLevel

/-- First line written by `_generate_svg_qr`: the XML declaration. -/
def svg_header_line : String := "<?xml version=\"1.0\" encoding=\"UTF-8\"?>"

/-- Opening `<svg>` tag of `_generate_svg_qr`, with equal width and height. -/
def svg_open_line (svg_size : Nat) : String :=
  "<svg width=\"" ++ toString svg_size ++ "\" height=\"" ++ toString svg_size ++
    "\" xmlns=\"http://www.w3.org/2000/svg\">"

/-- White full-size background rectangle of `_generate_svg_qr`. -/
def svg_background_line : String := "<rect width=\"100%\" height=\"100%\" fill=\"white\"/>"

/-- One black module rectangle of `_generate_svg_qr`, at pixel position `(x, y)` with the
given box size. -/
def svg_rect_line (x y box_size : Nat) : String :=
  "<rect x=\"" ++ toString x ++ "\" y=\"" ++ toString y ++ "\" width=\"" ++
    toString box_size ++ "\" height=\"" ++ toString box_size ++ "\" fill=\"black\"/>"

/-- Embeds `_generate_svg_qr` (`src/services/qr_generator.py`, lines 129-172). The
`qrcode` library's matrix construction is external; `encoder` stands for
`qr.get_matrix()` as a function of the data and error-correction level, the only request
fields handed to the library. The nested `for` loops that append one rectangle per truthy
module are the two folds, and the final `'\n'.join(...).encode('utf-8')` is the
intercalated string (whose UTF-8 bytes are the response body). -/
def generate_svg_qr (encoder : String → ErrorCorrectionLevel → List (List Bool))
    (request : QRCodeRequest) : String :=
  let qr_matrix := encoder request.data request.error_correction
  let box_size := 10
  let border := 4
  let matrix_size := qr_matrix.length
  let svg_size := (matrix_size + 2 * border) * box_size
  let svg_lines := [svg_header_line, svg_open_line svg_size, svg_background_line]
  let svg_lines := qr_matrix.enum.foldl (fun acc rowPair =>
    rowPair.2.enum.foldl (fun acc2 colPair =>
      if colPair.2 then
        acc2 ++ [svg_rect_line ((colPair.1 + border) * box_size)
          ((rowPair.1 + border) * box_size) box_size]
      else acc2) acc) svg_lines
  let svg_lines := svg_lines ++ ["</svg>"]
  String.intercalate "\n" svg_lines

/-- Claim-side description of the module rectangles: one black 10-by-10 rectangle per
truthy ("on") module, at position `((col+4)*10, (row+4)*10)`, in row-major order. -/
def svg_module_rect_lines (matrix : List (List Bool)) : List String :=
  (matrix.enum.map (fun rowPair =>
    ((rowPair.2.enum.filter (fun colPair => colPair.2)).map (fun colPair =>
      svg_rect_line ((colPair.1 + 4) * 10) ((rowPair.1 + 4) * 10) 10)))).flatten

theorem foldl_append_if {α β : Type} (p : α → Bool) (g : α → β) :
    ∀ (l : List α) (acc : List β),
      l.foldl (fun a x => if p x then a ++ [g x] else a) acc
        = acc ++ (l.filter p).map g := by
  intro l
  induction l with
  | nil => intro acc; simp
  | cons x xs ih =>
    intro acc
    by_cases h : p x <;> simp [List.foldl_cons, h, ih]

theorem foldl_append_flatten {α β : Type} (f : α → List β) :
    ∀ (l : List α) (acc : List β),
      l.foldl (fun a x => a ++ f x) acc = acc ++ (l.map f).flatten := by
  intro l
  induction l with
  | nil => intro acc; simp
  | cons x xs ih =>
    intro acc
    simp [List.foldl_cons, ih]

/-- C9: the SVG document is exactly the XML header, an `<svg>` tag whose width and height
both equal `(matrix_side + 2*4) * 10`, the white background rectangle, one black 10-by-10
rectangle per "on" module at `((col+4)*10, (row+4)*10)`, and the closing tag — and the
output is entirely independent of the request's pixel-size class. -/
theorem C9_svg_document (encoder : String → ErrorCorrectionLevel → List (List Bool))
    (request : QRCodeRequest) :
    generate_svg_qr encoder request
      = String.intercalate "\n"
          ([svg_header_line,
            svg_open_line
              (((encoder request.data request.error_correction).length + 2 * 4) * 10),
            svg_background_line]
            ++ svg_module_rect_lines (encoder request.data request.error_correction)
            ++ ["</svg>"])
    ∧ (∀ s, generate_svg_qr encoder { request with size := s }
        = generate_svg_qr encoder request) := by
  constructor
  · unfold generate_svg_qr svg_module_rect_lines
    dsimp only
    have hinner : ∀ (rowPair : Nat × List Bool) (acc : List String),
        rowPair.2.enum.foldl (fun acc2 colPair =>
          if colPair.2 then
            acc2 ++ [svg_rect_line ((colPair.1 + 4) * 10) ((rowPair.1 + 4) * 10) 10]
          else acc2) acc
          = acc ++ ((rowPair.2.enum.filter (fun colPair => colPair.2)).map (fun colPair =>
              svg_rect_line ((colPair.1 + 4) * 10) ((rowPair.1 + 4) * 10) 10)) := by
      intro rowPair acc
      exact foldl_append_if (fun colPair => colPair.2)
        (fun colPair => svg_rect_line ((colPair.1 + 4) * 10) ((rowPair.1 + 4) * 10) 10)
        rowPair.2.enum acc
    have houter :
        (encoder request.data request.error_correction).enum.foldl (fun acc rowPair =>
          rowPair.2.enum.foldl (fun acc2 colPair =>
            if colPair.2 then
              acc2 ++ [svg_rect_line ((colPair.1 + 4) * 10) ((rowPair.1 + 4) * 10) 10]
            else acc2) acc)
          [svg_header_line,
            svg_open_line
              (((encoder request.data request.error_correction).length + 2 * 4) * 10),
            svg_background_line]
          = [svg_header_line,
              svg_open_line
                (((encoder request.data request.error_correction).length + 2 * 4) * 10),
              svg_background_line]
            ++ ((encoder request.data request.error_correction).enum.map (fun rowPair =>
              ((rowPair.2.enum.filter (fun colPair => colPair.2)).map (fun colPair =>
                svg_rect_line ((colPair.1 + 4) * 10) ((rowPair.1 + 4) * 10) 10)))).flatten
          := by
      rw [show (fun (acc : List String) (rowPair : Nat × List Bool) =>
          rowPair.2.enum.foldl (fun acc2 colPair =>
            if colPair.2 then
              acc2 ++ [svg_rect_line ((colPair.1 + 4) * 10) ((rowPair.1 + 4) * 10) 10]
            else acc2) acc)
          = (fun (acc : List String) (rowPair : Nat × List Bool) =>
              acc ++ ((rowPair.2.enum.filter (fun colPair => colPair.2)).map
                (fun colPair =>
                  svg_rect_line ((colPair.1 + 4) * 10) ((rowPair.1 + 4) * 10) 10)))
        from funext (fun acc => funext (fun rowPair => hinner rowPair acc))]
      exact foldl_append_flatten _ _ _
    rw [houter, List.append_assoc]
  · intro s
    rfl

end QRService
